import Mathlib

/-!
LocationSource: the Windows Mobile GPS bridge.

A shallow embedding of `javax_microedition_location_WindowsMobileLocationProvider.cpp`
and `exceptions.cpp`.

Conventions of the embedding.

* `DWORD`, `LONG`, `BOOL` and `HANDLE` values are natural numbers; `NULL` is `0`.
* The constants of the platform headers (`Gpsapi.h`, `Service.h`, `winbase.h`,
  `winerror.h`), which are not part of the repository, are the fields of a
  `Platform` parameter.  `wince` gives them the values of the Windows CE SDK and
  is used only at concrete inputs.
* `jdouble` and `jfloat` values are only copied by the code, never computed
  with, so they are elements of two arbitrary types `D` and `F`; `F` carries
  the image of the integer literal `-15000`.
* The JNI primitives belong to the host runtime.  `NewObject` is the
  constructor of the Java object and `ThrowNew` appends to the list of signalled
  exceptions.  `FindClass` is a field of the `Platform` parameter; the host
  provides the three exception classes the module names itself.
* C strings are `String`s, one `char` for each character.  `sprintf` writes
  into a buffer of fixed size: a text that does not fit with its terminator
  overruns the buffer, which the state records in `overrun`; what the code does
  after that is undefined and the state says nothing more of it.  A `DWORD`
  printed with `%lu` is printed modulo `2 ^ 32`.
* A call to the platform is given by its outcome: the value it returns, or a
  fault (anything a `catch (...)` intercepts), and in both cases the code left
  in the thread's last-error slot.
-/

namespace LocationSource

/-! ## Machine types -/

abbrev DWORD := Nat
abbrev HANDLE := Nat
abbrev jint := Int

/-- The null handle. -/
def NULL : HANDLE := 0

/-- Constants and tables supplied by the platform headers, the operating system
and the host runtime. -/
structure Platform where
  ERROR_SUCCESS : DWORD
  WAIT_OBJECT_0 : DWORD
  WAIT_FAILED : DWORD
  SERVICE_STATE_OFF : DWORD
  SERVICE_STATE_ON : DWORD
  SERVICE_STATE_STARTING_UP : DWORD
  SERVICE_STATE_SHUTTING_DOWN : DWORD
  SERVICE_STATE_UNLOADING : DWORD
  SERVICE_STATE_UNINITIALIZED : DWORD
  SERVICE_STATE_UNKNOWN : DWORD
  GPS_VALID_LATITUDE : DWORD
  GPS_VALID_LONGITUDE : DWORD
  GPS_VALID_SPEED : DWORD
  GPS_VALID_HEADING : DWORD
  GPS_VALID_ALTITUDE_WRT_ELLIPSOID : DWORD
  GPS_VALID_HORIZONTAL_DILUTION_OF_PRECISION : DWORD
  GPS_VALID_VERTICAL_DILUTION_OF_PRECISION : DWORD
  /-- The system message table read by `FormatMessage(FORMAT_MESSAGE_FROM_SYSTEM, ..)`:
  the text for a code, or `none` when the table has none.  The lookup leaves the
  last-error slot alone here; the code never reads the slot after a lookup
  without first calling the platform or `SetLastError`. -/
  messageTable : DWORD → Option String
  /-- Whether `env->FindClass(name)` of the host runtime resolves the class. -/
  FindClass : String → Bool
  /-- The host provides the class of its I/O failures. -/
  FindClass_IOException : FindClass "java/io/IOException" = true
  /-- The host provides the class of its location failures. -/
  FindClass_LocationException :
    FindClass "javax/microedition/location/LocationException" = true
  /-- The host provides the class of its unhandled failures. -/
  FindClass_RuntimeException : FindClass "java/lang/RuntimeException" = true

/-- The values of the Windows CE SDK headers, with a one-entry message table and a
host that has the three exception classes and no other. -/
def wince : Platform where
  ERROR_SUCCESS := 0
  WAIT_OBJECT_0 := 0
  WAIT_FAILED := 0xFFFFFFFF
  SERVICE_STATE_OFF := 0
  SERVICE_STATE_ON := 1
  SERVICE_STATE_STARTING_UP := 2
  SERVICE_STATE_SHUTTING_DOWN := 3
  SERVICE_STATE_UNLOADING := 4
  SERVICE_STATE_UNINITIALIZED := 5
  SERVICE_STATE_UNKNOWN := 0xFFFFFFFF
  GPS_VALID_LATITUDE := 0x00000002
  GPS_VALID_LONGITUDE := 0x00000004
  GPS_VALID_SPEED := 0x00000008
  GPS_VALID_HEADING := 0x00000010
  GPS_VALID_ALTITUDE_WRT_ELLIPSOID := 0x00000080
  GPS_VALID_HORIZONTAL_DILUTION_OF_PRECISION := 0x00000200
  GPS_VALID_VERTICAL_DILUTION_OF_PRECISION := 0x00000400
  messageTable := fun code => if code = 6 then some "The handle is invalid.\r\n" else none
  FindClass := fun name =>
    decide (name = "java/io/IOException") ||
    decide (name = "javax/microedition/location/LocationException") ||
    decide (name = "java/lang/RuntimeException")
  FindClass_IOException := by decide
  FindClass_LocationException := by decide
  FindClass_RuntimeException := by decide

/-! ## Java constants (the generated JNI header) -/

def AVAILABLE : jint := 1
def TEMPORARILY_UNAVAILABLE : jint := 2
def OUT_OF_SERVICE : jint := 3

/-! ## Driver structures and Java objects -/

/-- The fields of the driver's `GPS_DEVICE` that the code reads. -/
structure GPS_DEVICE where
  dwServiceState : DWORD
deriving DecidableEq, Repr

/-- The fields of the driver's `GPS_POSITION` that the code reads. -/
structure GPS_POSITION (D F : Type) where
  dwValidFields : DWORD
  dblLatitude : D
  dblLongitude : D
  flSpeed : F
  flHeading : F
  flAltitudeWRTEllipsoid : F
  flHorizontalDilutionOfPrecision : F
  flVerticalDilutionOfPrecision : F
deriving DecidableEq, Repr

/-- The Java object `QualifiedCoordinates(latitude, longitude, altitude,
horizontalAccuracy, verticalAccuracy)`. -/
structure QualifiedCoordinates (D F : Type) where
  latitude : D
  longitude : D
  altitude : F
  horizontalAccuracy : F
  verticalAccuracy : F
deriving DecidableEq, Repr

/-- The Java references the native code hands back. -/
inductive jobject (D F : Type) where
  /-- The reference `NULL`. -/
  | null
  /-- The invalid location, `new LocationImpl()`. -/
  | invalidLocation
  /-- The location `new LocationImpl(qualifiedCoordinates, speed, course)`. -/
  | location (qualifiedCoordinates : QualifiedCoordinates D F) (speed course : F)
  /-- The boxed integer `new Integer(i)`. -/
  | integer (i : jint)
deriving DecidableEq, Repr

/-! ## Status translation -/

/-- Converts a GPS Intermediate Driver state integer to a JSR-179 state integer. -/
def convertState (P : Platform) (state : GPS_DEVICE) : jint :=
  if state.dwServiceState = P.SERVICE_STATE_ON then AVAILABLE
  else if state.dwServiceState = P.SERVICE_STATE_OFF
      ∨ state.dwServiceState = P.SERVICE_STATE_STARTING_UP
      ∨ state.dwServiceState = P.SERVICE_STATE_SHUTTING_DOWN
      ∨ state.dwServiceState = P.SERVICE_STATE_UNLOADING
      ∨ state.dwServiceState = P.SERVICE_STATE_UNINITIALIZED
      ∨ state.dwServiceState = P.SERVICE_STATE_UNKNOWN then TEMPORARILY_UNAVAILABLE
  else TEMPORARILY_UNAVAILABLE

/-- Converts a `jint` to a Java `Integer` object. -/
def convertInteger {D F : Type} (i : jint) : jobject D F :=
  jobject.integer i

/-- Converts a GPS Intermediate Driver location to a JSR-179 `Location`. -/
def convertLocation {D F : Type} [IntCast F] (P : Platform) (position : GPS_POSITION D F) :
    jobject D F :=
  if position.dwValidFields &&& (P.GPS_VALID_LATITUDE ||| P.GPS_VALID_LONGITUDE) = 0 then
    jobject.invalidLocation
  else
    let latitude := position.dblLatitude
    let longitude := position.dblLongitude
    let altitude : F :=
      if position.dwValidFields &&& P.GPS_VALID_ALTITUDE_WRT_ELLIPSOID ≠ 0
      then position.flAltitudeWRTEllipsoid else ((-15000 : Int) : F)
    let hAccuracy : F :=
      if position.dwValidFields &&& P.GPS_VALID_HORIZONTAL_DILUTION_OF_PRECISION ≠ 0
      then position.flHorizontalDilutionOfPrecision else ((-15000 : Int) : F)
    let vAccuracy : F :=
      if position.dwValidFields &&& P.GPS_VALID_VERTICAL_DILUTION_OF_PRECISION ≠ 0
      then position.flVerticalDilutionOfPrecision else ((-15000 : Int) : F)
    let speed : F :=
      if position.dwValidFields &&& P.GPS_VALID_SPEED ≠ 0
      then position.flSpeed else ((-15000 : Int) : F)
    let heading : F :=
      if position.dwValidFields &&& P.GPS_VALID_HEADING ≠ 0
      then position.flHeading else ((-15000 : Int) : F)
    let objCoordinates : QualifiedCoordinates D F :=
      { latitude := latitude, longitude := longitude, altitude := altitude,
        horizontalAccuracy := hAccuracy, verticalAccuracy := vAccuracy }
    jobject.location objCoordinates speed heading

/-! ## Ambient state -/

/-- A signalled Java exception: the class name and the text. -/
structure Signal where
  name : String
  msg : String
deriving DecidableEq, Repr

/-- The globals of the module, the thread's last-error slot, the exceptions
signalled to the host so far (oldest first), and whether a write has gone past the
end of a buffer. -/
structure State where
  hGPSDevice : HANDLE
  hNewLocationData : HANDLE
  hDeviceStateChange : HANDLE
  lastError : DWORD
  thrown : List Signal
  overrun : Bool
deriving DecidableEq, Repr

/-- Reads the last-error slot. -/
def GetLastError (s : State) : DWORD := s.lastError

/-- Writes the last-error slot. -/
def SetLastError (code : DWORD) (s : State) : State := { s with lastError := code }

/-! ## exceptions.cpp -/

/-- Throws a Java exception where `name` is the class name and `msg` is the
exception text; nothing is thrown when `FindClass` does not resolve the name. -/
def throwException (P : Platform) (name msg : String) (s : State) : State :=
  if P.FindClass name = true then
    { s with thrown := s.thrown ++ [{ name := name, msg := msg }] }
  else
    s

/-- Throws an `IOException` with `msg` as the text. -/
def throwIOException (P : Platform) (msg : String) (s : State) : State :=
  throwException P "java/io/IOException" msg s

/-- Throws a `LocationException` with `msg` as the text. -/
def throwLocationException (P : Platform) (msg : String) (s : State) : State :=
  throwException P "javax/microedition/location/LocationException" msg s

/-- The platform call `FormatMessage(FORMAT_MESSAGE_FROM_SYSTEM, 0, code, 0, buffer,
nSize, NULL)`: when the table has a text for the code and the text fits `nSize`
characters with its terminator, it stores the text and returns its length;
otherwise it fails and returns 0. -/
def FormatMessage (P : Platform) (code : DWORD) (nSize : Nat) : Nat × String :=
  match P.messageTable code with
  | some text => if text.length < nSize then (text.length, text) else (0, "")
  | none => (0, "")

/-- The loop of `getWinErrorMessage` that cuts the line ends off the end of the
text; the argument is the text reversed.  (On a text made of line ends only the
C loop would step in front of its buffer; here it stops at the empty text.) -/
def trimLineEnds : List Char → List Char
  | [] => []
  | c :: cs => if c = '\n' ∨ c = '\r' then trimLineEnds cs else c :: cs

/-- Returns a human readable error message for a system error code. -/
def getWinErrorMessage (P : Platform) (last_error : DWORD) : String :=
  if (FormatMessage P last_error 511).1 = 0 then
    "No error message for code " ++ toString (last_error % 2 ^ 32)
  else
    String.mk (trimLineEnds (FormatMessage P last_error 511).2.data.reverse).reverse

/-- The text `sprintf(errmsg, "%s; [%lu] %S", msg, last_error,
getWinErrorMessage(last_error))` writes. -/
def formatLastError (P : Platform) (msg : String) (last_error : DWORD) : String :=
  msg ++ "; [" ++ toString (last_error % 2 ^ 32) ++ "] " ++ getWinErrorMessage P last_error

/-- Throws an exception of type `name` for the Windows error code `last_error`.
The text is written into `char errmsg[1064]`. -/
def throwLastError (P : Platform) (name msg : String) (last_error : DWORD) (s : State) : State :=
  if last_error = P.ERROR_SUCCESS then
    throwException P name msg s
  else if (formatLastError P msg last_error).length < 1064 then
    throwException P name (formatLastError P msg last_error) s
  else
    { s with overrun := true }

/-- Throws an unhandled exception into Java (the code is the last error). -/
def throwUnhandledException (P : Platform) (msg : String) (s : State) : State :=
  throwLastError P "java/lang/RuntimeException" msg (GetLastError s) s

/-- Throws an `IOException` encapsulating a Windows error code. -/
def throwLastErrorAsIOException (P : Platform) (msg : String) (last_error : DWORD)
    (s : State) : State :=
  throwLastError P "java/io/IOException" msg last_error s

/-- Throws a `LocationException` if `last_error` is a Windows error code and
returns true.  Otherwise returns false. -/
def throwLocationExceptionIfError (P : Platform) (msg : String) (last_error : DWORD)
    (s : State) : Bool × State :=
  if last_error ≠ P.ERROR_SUCCESS then
    (true, SetLastError 0
      (throwLastError P "javax/microedition/location/LocationException" msg last_error s))
  else
    (false, s)

/-! ## Calls to the platform and C++ control flow -/

/-- The outcome of one call to the platform: the value returned or a fault, and
the code the call leaves in the last-error slot. -/
inductive Outcome (α : Type) where
  | returns (value : α) (lastError : DWORD)
  | faults (lastError : DWORD)
deriving DecidableEq, Repr

/-- How a fragment of code ends: normally, with a value, or with a C++ exception
in flight. -/
inductive Completion (α : Type) where
  | normal (value : α)
  | raised
deriving DecidableEq, Repr

/-- A fragment of code inside a `try` block. -/
def Exec (α : Type) : Type := State → Completion α × State

/-- A fragment that ends normally with `a`. -/
def Exec.pure {α : Type} (a : α) : Exec α := fun s => (Completion.normal a, s)

/-- Sequencing: an exception in flight skips the rest. -/
def Exec.bind {α β : Type} (m : Exec α) (f : α → Exec β) : Exec β := fun s =>
  match m s with
  | (Completion.normal a, s1) => f a s1
  | (Completion.raised, s1) => (Completion.raised, s1)

instance : Monad Exec where
  pure := Exec.pure
  bind := Exec.bind

/-- A call to the platform with the given outcome. -/
def call {α : Type} (o : Outcome α) : Exec α := fun s =>
  match o with
  | Outcome.returns v e => (Completion.normal v, SetLastError e s)
  | Outcome.faults e => (Completion.raised, SetLastError e s)

/-- A statement that cannot raise: it updates the state and yields a value. -/
def stmt {α : Type} (f : State → α × State) : Exec α := fun s =>
  (Completion.normal (f s).1, (f s).2)

/-- Reads the state. -/
def readState : Exec State := fun s => (Completion.normal s, s)

/-- The construct `try { body } catch (...) { handler }`. -/
def tryCatch {α : Type} (body : Exec α) (handler : State → α × State) (s : State) : α × State :=
  match body s with
  | (Completion.normal a, s1) => (a, s1)
  | (Completion.raised, s1) => handler s1

/-! ## Helper methods -/

/-- Outcomes of the registry calls of `hasGPS`; `RegQueryValueEx` gives its
result and the size it stores in `dwSize`. -/
structure RegistryOutcomes where
  RegOpenKeyEx : Outcome DWORD
  RegQueryValueEx : Outcome (DWORD × DWORD)
  RegCloseKey : Outcome DWORD
deriving DecidableEq, Repr

/-- Checks if any GPS receivers are configured on this device. -/
def hasGPS (P : Platform) (o : RegistryOutcomes) : Exec Bool := do
  let opened ← call o.RegOpenKeyEx
  if opened = P.ERROR_SUCCESS then do
    let (result, dwSize) ← call o.RegQueryValueEx
    let _ ← call o.RegCloseKey
    if result ≠ P.ERROR_SUCCESS ∨ dwSize = 0 then
      pure false
    else
      pure true
  else
    pure false

/-- Gets the current state of the GPS; `o` is the outcome of `GPSGetDeviceState`,
the result code and the structure it fills. -/
def getState (P : Platform) (o : Outcome (DWORD × GPS_DEVICE)) (s : State) : jint × State :=
  tryCatch
    (do
      let (result, state) ← call o
      if result ≠ P.ERROR_SUCCESS then do
        let _ ← stmt (throwLocationExceptionIfError P "Could not get device state" result)
        pure OUT_OF_SERVICE
      else
        let ret := convertState P state
        pure ret)
    (fun s1 => (OUT_OF_SERVICE,
      throwUnhandledException P
        "Unhandled exception getting the state of the GPS Intermediate Driver." s1))
    s

/-- Gets the last known location from the GPS; `o` is the outcome of
`GPSGetPosition`, the result code and the structure it fills. -/
def getLocation {D F : Type} [IntCast F] (P : Platform)
    (o : Outcome (DWORD × GPS_POSITION D F)) (s : State) : jobject D F × State :=
  tryCatch
    (do
      let (result, position) ← call o
      if result ≠ P.ERROR_SUCCESS then do
        let _ ← stmt (throwLocationExceptionIfError P "Could not get position" result)
        pure jobject.null
      else
        let objLocation := convertLocation P position
        pure objLocation)
    (fun s1 => (jobject.null,
      throwUnhandledException P
        "Unhandled exception getting a location from the GPS Intermediate Driver." s1))
    s

/-! ## JNI methods -/

/-- Outcomes of the platform calls of `startGPS`, in program order. -/
structure StartOutcomes where
  registry : RegistryOutcomes
  CreateEvent_newLocationData : Outcome HANDLE
  CreateEvent_deviceStateChange : Outcome HANDLE
  GPSOpenDevice : Outcome HANDLE
deriving DecidableEq, Repr

/-- Starts the GPS Intermediate Driver. -/
def startGPS (P : Platform) (o : StartOutcomes) (s : State) : Bool × State :=
  tryCatch
    (do
      let gps ← hasGPS P o.registry
      if gps = false then
        pure false
      else do
        let h1 ← call o.CreateEvent_newLocationData
        stmt fun s1 => ((), { s1 with hNewLocationData := h1 })
        if h1 = NULL then do
          stmt fun s1 => ((), throwLocationException P "Error creating events" s1)
          pure false
        else do
          let h2 ← call o.CreateEvent_deviceStateChange
          stmt fun s1 => ((), { s1 with hDeviceStateChange := h2 })
          if h2 = NULL then do
            stmt fun s1 => ((), throwLocationException P "Error creating events" s1)
            pure false
          else do
            let h3 ← call o.GPSOpenDevice
            stmt fun s1 => ((), { s1 with hGPSDevice := h3 })
            if h3 = NULL then do
              stmt fun s1 => ((), throwLocationException P "Could not start GPS" s1)
              pure false
            else
              pure true)
    (fun s1 => (false,
      throwUnhandledException P "Unhandled exception starting GPS Intermediate Driver." s1))
    s

/-- Outcomes of the platform calls of `stopGPS`, in program order. -/
structure StopOutcomes where
  CloseHandle_deviceStateChange : Outcome DWORD
  CloseHandle_gpsDevice : Outcome DWORD
  GPSCloseDevice : Outcome DWORD
deriving DecidableEq, Repr

/-- Stops the GPS Intermediate Driver. -/
def stopGPS (P : Platform) (o : StopOutcomes) (s : State) : Unit × State :=
  tryCatch
    (do
      let s0 ← readState
      if s0.hGPSDevice ≠ NULL then do
        let _ ← call o.CloseHandle_deviceStateChange
        stmt fun s1 => ((), { s1 with hDeviceStateChange := NULL })
        let _ ← call o.CloseHandle_gpsDevice
        stmt fun s1 => ((), { s1 with hGPSDevice := NULL })
        let result ← call o.GPSCloseDevice
        stmt fun s1 => ((), { s1 with hGPSDevice := NULL })
        if result ≠ P.ERROR_SUCCESS then do
          let _ ← stmt fun s1 =>
            throwLocationExceptionIfError P "Error stopping GPS" (GetLastError s1) s1
          pure ()
        else
          pure ()
      else
        pure ())
    (fun s1 => ((),
      throwUnhandledException P "Unhandled exception stopping GPS Intermediate Driver." s1))
    s

/-- Outcomes of the platform calls of `getGPSEvent`: the wait, then the query
that the raised event selects. -/
structure EventOutcomes (D F : Type) where
  WaitForMultipleObjects : Outcome DWORD
  GPSGetPosition : Outcome (DWORD × GPS_POSITION D F)
  GPSGetDeviceState : Outcome (DWORD × GPS_DEVICE)

/-- Blocks until the GPS Intermediate Driver gets a new event, and returns it. -/
def getGPSEvent {D F : Type} [IntCast F] (P : Platform) (o : EventOutcomes D F)
    (s : State) : jobject D F × State :=
  tryCatch
    (do
      let event_raised ← call o.WaitForMultipleObjects
      if event_raised = P.WAIT_OBJECT_0 then
        stmt (getLocation P o.GPSGetPosition)
      else if event_raised = (P.WAIT_OBJECT_0 + 1) % 2 ^ 32 then do
        let state ← stmt (getState P o.GPSGetDeviceState)
        pure (convertInteger state)
      else if event_raised = P.WAIT_FAILED then do
        let _ ← stmt fun s1 =>
          throwLocationExceptionIfError P "Error waiting for GPS events" (GetLastError s1) s1
        pure jobject.null
      else
        pure jobject.null)
    (fun s1 => (jobject.null,
      throwUnhandledException P
        "Unhandled exception waiting for GPS Intermediate Driver event." s1))
    s

/-- The outcomes of `WaitForMultipleObjects(2, handles, FALSE, INFINITE)` on two
event handles: the index of the event that fired, at `WAIT_OBJECT_0`, or
`WAIT_FAILED` with the code of the failure in the last-error slot, or a fault.
(The wait has no time limit and events are never abandoned.) -/
def WaitOutcome (P : Platform) (o : Outcome DWORD) : Prop :=
  match o with
  | Outcome.returns v e =>
    v = P.WAIT_OBJECT_0 ∨ v = (P.WAIT_OBJECT_0 + 1) % 2 ^ 32 ∨
      (v = P.WAIT_FAILED ∧ e ≠ P.ERROR_SUCCESS)
  | Outcome.faults _ => True

/-! ## Sessions -/

/-- The three handles of a state. -/
def handles (s : State) : HANDLE × HANDLE × HANDLE :=
  (s.hGPSDevice, s.hNewLocationData, s.hDeviceStateChange)

/-- All three handles are null. -/
def Closed (s : State) : Prop :=
  s.hGPSDevice = NULL ∧ s.hNewLocationData = NULL ∧ s.hDeviceStateChange = NULL

/-- All three handles are non-null. -/
def Open (s : State) : Prop :=
  s.hGPSDevice ≠ NULL ∧ s.hNewLocationData ≠ NULL ∧ s.hDeviceStateChange ≠ NULL

instance (s : State) : Decidable (Closed s) := by unfold Closed; infer_instance

instance (s : State) : Decidable (Open s) := by unfold Open; infer_instance

/-- One call of the host on the session, with the outcomes of its platform calls. -/
inductive SessionCall where
  | start (o : StartOutcomes)
  | stop (o : StopOutcomes)
deriving DecidableEq, Repr

/-- The state after one call. -/
def SessionCall.apply (P : Platform) (c : SessionCall) (s : State) : State :=
  match c with
  | SessionCall.start o => (startGPS P o s).2
  | SessionCall.stop o => (stopGPS P o s).2

/-- The state after a sequence of calls. -/
def runCalls (P : Platform) (cs : List SessionCall) (s : State) : State :=
  cs.foldl (fun st c => c.apply P st) s

/-- The state of the module when it is loaded: no handle, nothing signalled. -/
def initialState : State :=
  { hGPSDevice := NULL, hNewLocationData := NULL, hDeviceStateChange := NULL,
    lastError := 0, thrown := [], overrun := false }

/-! ## Concrete inputs -/

/-- A position with latitude, longitude and speed valid. -/
def positionFull : GPS_POSITION Rat Rat :=
  { dwValidFields := 0x0000000E, dblLatitude := 47.6, dblLongitude := -122.3,
    flSpeed := 3, flHeading := 90, flAltitudeWRTEllipsoid := 12,
    flHorizontalDilutionOfPrecision := 5, flVerticalDilutionOfPrecision := 7 }

/-- A position with only speed and heading valid. -/
def positionNoCoordinates : GPS_POSITION Rat Rat :=
  { dwValidFields := 0x00000018, dblLatitude := 47.6, dblLongitude := -122.3,
    flSpeed := 3, flHeading := 90, flAltitudeWRTEllipsoid := 12,
    flHorizontalDilutionOfPrecision := 5, flVerticalDilutionOfPrecision := 7 }

/-- A position with only the latitude valid; the rest is as `memset` left it. -/
def positionLatitudeOnly : GPS_POSITION Rat Rat :=
  { dwValidFields := 0x00000002, dblLatitude := 47.6, dblLongitude := 0,
    flSpeed := 0, flHeading := 0, flAltitudeWRTEllipsoid := 0,
    flHorizontalDilutionOfPrecision := 0, flVerticalDilutionOfPrecision := 0 }

/-- Registry outcomes on a device with a configured receiver. -/
def registryWithReceiver : RegistryOutcomes :=
  { RegOpenKeyEx := Outcome.returns 0 0,
    RegQueryValueEx := Outcome.returns (0, 38) 0,
    RegCloseKey := Outcome.returns 0 0 }

/-- A start in which the second event creation fails (out of memory). -/
def startSecondEventFails : StartOutcomes :=
  { registry := registryWithReceiver,
    CreateEvent_newLocationData := Outcome.returns 0x1001 0,
    CreateEvent_deviceStateChange := Outcome.returns NULL 8,
    GPSOpenDevice := Outcome.returns 0x1003 0 }

/-- An open session. -/
def openState : State :=
  { hGPSDevice := 0x1003, hNewLocationData := 0x1001, hDeviceStateChange := 0x1002,
    lastError := 0, thrown := [], overrun := false }

/-- A stop in which the driver-close call reports invalid parameter (87) and the
last-error slot holds no error. -/
def stopCloseFails : StopOutcomes :=
  { CloseHandle_deviceStateChange := Outcome.returns 1 0,
    CloseHandle_gpsDevice := Outcome.returns 1 0,
    GPSCloseDevice := Outcome.returns 87 0 }

/-- A wait that fails because a handle is invalid (last error 6). -/
def eventWaitFails : EventOutcomes Rat Rat :=
  { WaitForMultipleObjects := Outcome.returns 0xFFFFFFFF 6,
    GPSGetPosition := Outcome.returns (0, positionFull) 0,
    GPSGetDeviceState := Outcome.returns (0, { dwServiceState := 1 }) 0 }

/-- The new-data event fires and the position query fails with code 87. -/
def eventPositionFails : EventOutcomes Rat Rat :=
  { WaitForMultipleObjects := Outcome.returns 0 0,
    GPSGetPosition := Outcome.returns (87, positionFull) 0,
    GPSGetDeviceState := Outcome.returns (0, { dwServiceState := 1 }) 0 }

/-- Registry outcomes on a device without a receiver: the `Drivers` key opens,
the `CurrentDriver` value is missing (2, file not found). -/
def registryNoReceiver : RegistryOutcomes :=
  { RegOpenKeyEx := Outcome.returns 0 0,
    RegQueryValueEx := Outcome.returns (2, 512) 0,
    RegCloseKey := Outcome.returns 0 0 }

/-- A start on a device without a receiver; the platform would create the events
and open the driver if it were asked to. -/
def startNoReceiver : StartOutcomes :=
  { registry := registryNoReceiver,
    CreateEvent_newLocationData := Outcome.returns 0x1001 0,
    CreateEvent_deviceStateChange := Outcome.returns 0x1002 0,
    GPSOpenDevice := Outcome.returns 0x1003 0 }

/-- The state-change event fires and the device-state query reports the service
on. -/
def eventStateOn : EventOutcomes Rat Rat :=
  { WaitForMultipleObjects := Outcome.returns 1 0,
    GPSGetPosition := Outcome.returns (0, positionFull) 0,
    GPSGetDeviceState := Outcome.returns (0, { dwServiceState := 1 }) 0 }

/-- The state-change event fires and the device-state query fails with code 87. -/
def eventStateQueryFails : EventOutcomes Rat Rat :=
  { WaitForMultipleObjects := Outcome.returns 1 0,
    GPSGetPosition := Outcome.returns (0, positionFull) 0,
    GPSGetDeviceState := Outcome.returns (87, { dwServiceState := 0 }) 0 }

/-! # Theorems -/

/-! ## Lemmas on bitmasks -/

theorem land_lor_eq_zero_iff (v a b : Nat) :
    v &&& (a ||| b) = 0 ↔ v &&& a = 0 ∧ v &&& b = 0 := by
  rw [Nat.and_or_distrib_left]
  constructor
  · intro h
    constructor
    · apply Nat.eq_of_testBit_eq
      intro i
      have := congrArg (fun n => n.testBit i) h
      simp only [Nat.testBit_or, Nat.zero_testBit, Bool.or_eq_false_iff] at this
      simp [this.1]
    · apply Nat.eq_of_testBit_eq
      intro i
      have := congrArg (fun n => n.testBit i) h
      simp only [Nat.testBit_or, Nat.zero_testBit, Bool.or_eq_false_iff] at this
      simp [this.2]
  · rintro ⟨h1, h2⟩
    simp [h1, h2]

/-! ## Lemmas on code fragments -/

@[simp] theorem Exec.bind_def {α β : Type} (m : Exec α) (f : α → Exec β) :
    (m >>= f) = Exec.bind m f := rfl

@[simp] theorem Exec.pure_def {α : Type} (a : α) : (Pure.pure a : Exec α) = Exec.pure a := rfl

@[simp] theorem bind_call_returns {α β : Type} (v : α) (e : DWORD) (f : α → Exec β)
    (s : State) :
    Exec.bind (call (Outcome.returns v e)) f s = f v (SetLastError e s) := rfl

@[simp] theorem bind_call_faults {α β : Type} (e : DWORD) (f : α → Exec β) (s : State) :
    Exec.bind (call (Outcome.faults e : Outcome α)) f s
      = (Completion.raised, SetLastError e s) := rfl

@[simp] theorem bind_stmt {α β : Type} (g : State → α × State) (f : α → Exec β) (s : State) :
    Exec.bind (stmt g) f s = f (g s).1 (g s).2 := rfl

@[simp] theorem bind_readState {β : Type} (f : State → Exec β) (s : State) :
    Exec.bind readState f s = f s s := rfl

@[simp] theorem pure_run {α : Type} (a : α) (s : State) :
    Exec.pure a s = (Completion.normal a, s) := rfl

@[simp] theorem stmt_run {α : Type} (g : State → α × State) (s : State) :
    stmt g s = (Completion.normal (g s).1, (g s).2) := rfl

@[simp] theorem call_returns_run {α : Type} (v : α) (e : DWORD) (s : State) :
    call (Outcome.returns v e) s = (Completion.normal v, SetLastError e s) := rfl

@[simp] theorem call_faults_run {α : Type} (e : DWORD) (s : State) :
    call (Outcome.faults e : Outcome α) s = (Completion.raised, SetLastError e s) := rfl

theorem ite_run {α : Type} (c : Prop) [Decidable c] (m1 m2 : Exec α) (s : State) :
    (if c then m1 else m2) s = if c then m1 s else m2 s := by
  split <;> rfl

/-! ## Lemmas on error signalling -/

theorem append_singleton_ne {α : Type} (l : List α) (x : α) : l ++ [x] ≠ l := by
  intro h
  have h2 := congrArg List.length h
  simp at h2

theorem toString_mod_length (n : Nat) : (toString (n % 2 ^ 32)).length ≤ 10 := by
  have h : n % 2 ^ 32 < 10 ^ 10 :=
    Nat.lt_of_lt_of_le (Nat.mod_lt _ (by norm_num)) (by norm_num)
  exact Nat.repr_length (n % 2 ^ 32) 10 (by norm_num) h

theorem trimLineEnds_length (l : List Char) : (trimLineEnds l).length ≤ l.length := by
  induction l with
  | nil => exact Nat.le_refl _
  | cons c cs ih =>
    unfold trimLineEnds
    split
    · exact Nat.le_succ_of_le ih
    · exact Nat.le_refl _

theorem FormatMessage_length (P : Platform) (code : DWORD) (nSize : Nat)
    (h : (FormatMessage P code nSize).1 ≠ 0) :
    (FormatMessage P code nSize).2.length < nSize := by
  unfold FormatMessage at h ⊢
  cases hm : P.messageTable code with
  | none => rw [hm] at h; exact absurd rfl h
  | some text =>
    rw [hm] at h
    simp only at h ⊢
    by_cases hl : text.length < nSize
    · rw [if_pos hl]
      exact hl
    · rw [if_neg hl] at h
      exact absurd rfl h

theorem getWinErrorMessage_length (P : Platform) (code : DWORD) :
    (getWinErrorMessage P code).length ≤ 510 := by
  unfold getWinErrorMessage
  by_cases h : (FormatMessage P code 511).1 = 0
  · rw [if_pos h, String.length_append]
    have h1 := toString_mod_length code
    have h2 : ("No error message for code " : String).length = 26 := by decide
    omega
  · rw [if_neg h]
    have h1 := FormatMessage_length P code 511 h
    have h2 := trimLineEnds_length (FormatMessage P code 511).2.data.reverse
    rw [List.length_reverse] at h2
    have h3 : (String.mk (trimLineEnds (FormatMessage P code 511).2.data.reverse).reverse).length
        = (trimLineEnds (FormatMessage P code 511).2.data.reverse).length := by
      rw [String.length_mk, List.length_reverse]
    have h4 : (FormatMessage P code 511).2.length = (FormatMessage P code 511).2.data.length :=
      rfl
    omega

theorem formatLastError_length (P : Platform) (msg : String) (code : DWORD) :
    (formatLastError P msg code).length ≤ msg.length + 525 := by
  unfold formatLastError
  rw [String.length_append, String.length_append, String.length_append,
    String.length_append]
  have h1 := toString_mod_length code
  have h2 := getWinErrorMessage_length P code
  have h3 : ("; [" : String).length = 3 := by decide
  have h4 : ("] " : String).length = 2 := by decide
  omega

theorem formatLastError_fits (P : Platform) (msg : String) (code : DWORD)
    (h : msg.length ≤ 538) : (formatLastError P msg code).length < 1064 := by
  have h1 := formatLastError_length P msg code
  omega

theorem throwException_found (P : Platform) (name msg : String) (s : State)
    (h : P.FindClass name = true) :
    throwException P name msg s =
      { s with thrown := s.thrown ++ [{ name := name, msg := msg }] } := by
  simp only [throwException, if_pos h]

theorem throwLastError_success (P : Platform) (name msg : String) (code : DWORD) (s : State)
    (h : code = P.ERROR_SUCCESS) :
    throwLastError P name msg code s = throwException P name msg s := by
  simp only [throwLastError, if_pos h]

theorem throwLastError_eq (P : Platform) (name msg : String) (code : DWORD) (s : State)
    (hclass : P.FindClass name = true) (hlen : msg.length ≤ 538) :
    throwLastError P name msg code s =
      { s with thrown := s.thrown ++
          [{ name := name,
             msg := if code = P.ERROR_SUCCESS then msg else formatLastError P msg code }] } := by
  by_cases h : code = P.ERROR_SUCCESS
  · simp only [throwLastError, if_pos h, throwException_found P name _ s hclass]
  · simp only [throwLastError, if_neg h, if_pos (formatLastError_fits P msg code hlen),
      throwException_found P name _ s hclass]

theorem throwLocationExceptionIfError_failure (P : Platform) (msg : String) (code : DWORD)
    (s : State) (h : code ≠ P.ERROR_SUCCESS) (hlen : msg.length ≤ 538) :
    throwLocationExceptionIfError P msg code s =
      (true, { s with
        lastError := 0
        thrown := s.thrown ++
          [{ name := "javax/microedition/location/LocationException",
             msg := formatLastError P msg code }] }) := by
  simp only [throwLocationExceptionIfError, if_pos h,
    throwLastError_eq P _ msg code s P.FindClass_LocationException hlen, if_neg h,
    SetLastError]

theorem throwUnhandledException_thrown (P : Platform) (msg : String) (s : State)
    (hlen : msg.length ≤ 538) :
    ∃ text, (throwUnhandledException P msg s).thrown =
      s.thrown ++ [{ name := "java/lang/RuntimeException", msg := text }] :=
  ⟨_, by rw [throwUnhandledException,
    throwLastError_eq P _ msg _ s P.FindClass_RuntimeException hlen]⟩

theorem handles_eq {s : State} {a b c : HANDLE} (h : handles s = (a, b, c)) :
    s.hGPSDevice = a ∧ s.hNewLocationData = b ∧ s.hDeviceStateChange = c := by
  simp only [handles, Prod.mk.injEq] at h
  exact h

@[simp] theorem handles_SetLastError (e : DWORD) (s : State) :
    handles (SetLastError e s) = handles s := rfl

@[simp] theorem handles_throwException (P : Platform) (name msg : String) (s : State) :
    handles (throwException P name msg s) = handles s := by
  unfold throwException; split <;> rfl

@[simp] theorem handles_throwLocationException (P : Platform) (msg : String) (s : State) :
    handles (throwLocationException P msg s) = handles s :=
  handles_throwException P _ msg s

@[simp] theorem handles_throwLastError (P : Platform) (name msg : String) (code : DWORD)
    (s : State) : handles (throwLastError P name msg code s) = handles s := by
  unfold throwLastError
  split
  · exact handles_throwException P _ _ s
  · split
    · exact handles_throwException P _ _ s
    · rfl

@[simp] theorem handles_throwUnhandledException (P : Platform) (msg : String) (s : State) :
    handles (throwUnhandledException P msg s) = handles s := by
  unfold throwUnhandledException; exact handles_throwLastError _ _ _ _ _

@[simp] theorem handles_throwLocationExceptionIfError (P : Platform) (msg : String)
    (code : DWORD) (s : State) :
    handles (throwLocationExceptionIfError P msg code s).2 = handles s := by
  unfold throwLocationExceptionIfError; split
  · exact (handles_SetLastError _ _).trans (handles_throwLastError _ _ _ _ _)
  · rfl

/-- The description of a code the message table knows is its text without the
line ends at its end. -/
theorem getWinErrorMessage_known :
    getWinErrorMessage wince 6 = "The handle is invalid." := by
  decide

/-- The description of a code the message table does not know. -/
theorem getWinErrorMessage_unknown :
    getWinErrorMessage wince 87 = "No error message for code 87" := by
  decide

/-- An instance of the formatted text. -/
theorem throwLastError_example :
    (throwLastError wince "java/io/IOException" "Could not open" 6 initialState).thrown =
      [{ name := "java/io/IOException",
         msg := "Could not open; [6] The handle is invalid." }] := by
  decide

/-! ## Lemmas on the helper methods -/

theorem hasGPS_frame (P : Platform) (o : RegistryOutcomes) (s : State) :
    ∃ (c : Completion Bool) (e : DWORD), hasGPS P o s = (c, SetLastError e s) := by
  rcases o with ⟨ro, rq, rc⟩
  cases ro with
  | faults e => exact ⟨_, e, rfl⟩
  | returns v e =>
    simp only [hasGPS, Exec.bind_def, Exec.pure_def, bind_call_returns, ite_run]
    split_ifs with h
    · cases rq with
      | faults e2 => exact ⟨_, e2, rfl⟩
      | returns v2 e2 =>
        cases rc with
        | faults e3 => exact ⟨_, e3, rfl⟩
        | returns v3 e3 =>
          simp only [bind_call_returns, ite_run, pure_run]
          split_ifs <;> exact ⟨_, e3, rfl⟩
    · exact ⟨_, e, rfl⟩

theorem hasGPS_bind (P : Platform) (o : RegistryOutcomes) (s : State) :
    ∃ e : DWORD,
      (∀ (β : Type) (f : Bool → Exec β),
        Exec.bind (hasGPS P o) f s = (Completion.raised, SetLastError e s)) ∨
      (∀ (β : Type) (f : Bool → Exec β),
        Exec.bind (hasGPS P o) f s = f false (SetLastError e s)) ∨
      (∀ (β : Type) (f : Bool → Exec β),
        Exec.bind (hasGPS P o) f s = f true (SetLastError e s)) := by
  obtain ⟨c, e, hc⟩ := hasGPS_frame P o s
  refine ⟨e, ?_⟩
  cases c with
  | raised => exact Or.inl fun β f => by unfold Exec.bind; rw [hc]
  | normal gps =>
    cases gps
    · exact Or.inr (Or.inl fun β f => by unfold Exec.bind; rw [hc])
    · exact Or.inr (Or.inr fun β f => by unfold Exec.bind; rw [hc])

theorem convertLocation_ne_null {D F : Type} [IntCast F] (P : Platform)
    (position : GPS_POSITION D F) : convertLocation P position ≠ jobject.null := by
  unfold convertLocation
  split
  · exact fun h => jobject.noConfusion h
  · exact fun h => jobject.noConfusion h

theorem getLocation_failure {D F : Type} [IntCast F] (P : Platform) (code e : DWORD)
    (position : GPS_POSITION D F) (s : State) (h : code ≠ P.ERROR_SUCCESS) :
    getLocation P (Outcome.returns (code, position) e) s =
      (jobject.null,
        (throwLocationExceptionIfError P "Could not get position" code (SetLastError e s)).2) := by
  simp only [getLocation, tryCatch, Exec.bind_def, Exec.pure_def, bind_call_returns, ite_run,
    if_pos h, bind_stmt, pure_run]

theorem getLocation_success {D F : Type} [IntCast F] (P : Platform) (code e : DWORD)
    (position : GPS_POSITION D F) (s : State) (h : code = P.ERROR_SUCCESS) :
    getLocation P (Outcome.returns (code, position) e) s =
      (convertLocation P position, SetLastError e s) := by
  have h2 : ¬ code ≠ P.ERROR_SUCCESS := not_not.2 h
  simp only [getLocation, tryCatch, Exec.bind_def, Exec.pure_def, bind_call_returns, ite_run,
    if_neg h2, pure_run]

theorem getLocation_faults {D F : Type} [IntCast F] (P : Platform) (e : DWORD) (s : State) :
    getLocation P (Outcome.faults e : Outcome (DWORD × GPS_POSITION D F)) s =
      (jobject.null, throwUnhandledException P
        "Unhandled exception getting a location from the GPS Intermediate Driver."
        (SetLastError e s)) := by
  simp only [getLocation, tryCatch, Exec.bind_def, Exec.pure_def, bind_call_faults]

theorem getLocation_cases {D F : Type} [IntCast F] (P : Platform)
    (o : Outcome (DWORD × GPS_POSITION D F)) (s : State) :
    ((getLocation P o s).1 ≠ jobject.null ∧ (getLocation P o s).2.thrown = s.thrown) ∨
    ((getLocation P o s).1 = jobject.null ∧
      ∃ name text, (getLocation P o s).2.thrown = s.thrown ++ [{ name := name, msg := text }] ∧
        (name = "javax/microedition/location/LocationException" ∨
          name = "java/lang/RuntimeException")) := by
  cases o with
  | faults e =>
    rw [getLocation_faults]
    obtain ⟨text, ht⟩ := throwUnhandledException_thrown P
      "Unhandled exception getting a location from the GPS Intermediate Driver."
      (SetLastError e s) (by decide)
    exact Or.inr ⟨rfl, _, text, ht, Or.inr rfl⟩
  | returns v e =>
    obtain ⟨code, position⟩ := v
    by_cases h : code = P.ERROR_SUCCESS
    · rw [getLocation_success _ _ _ _ _ h]
      exact Or.inl ⟨convertLocation_ne_null _ _, rfl⟩
    · rw [getLocation_failure _ _ _ _ _ h,
        throwLocationExceptionIfError_failure P "Could not get position" code _ h (by decide)]
      exact Or.inr ⟨rfl, _, _, rfl, Or.inl rfl⟩

theorem getState_cases (P : Platform) (o : Outcome (DWORD × GPS_DEVICE)) (s : State) :
    (getState P o s).2.thrown = s.thrown ∨
      ∃ name text, (getState P o s).2.thrown = s.thrown ++ [{ name := name, msg := text }] ∧
        (name = "javax/microedition/location/LocationException" ∨
          name = "java/lang/RuntimeException") := by
  cases o with
  | faults e =>
    simp only [getState, tryCatch, Exec.bind_def, Exec.pure_def, bind_call_faults]
    obtain ⟨text, ht⟩ := throwUnhandledException_thrown P
      "Unhandled exception getting the state of the GPS Intermediate Driver."
      (SetLastError e s) (by decide)
    exact Or.inr ⟨_, text, ht, Or.inr rfl⟩
  | returns v e =>
    obtain ⟨code, state⟩ := v
    simp only [getState, tryCatch, Exec.bind_def, Exec.pure_def, bind_call_returns, ite_run,
      bind_stmt, pure_run]
    by_cases h : code ≠ P.ERROR_SUCCESS
    · rw [if_pos h,
        throwLocationExceptionIfError_failure P "Could not get device state" code _ h
          (by decide)]
      exact Or.inr ⟨_, _, rfl, Or.inl rfl⟩
    · rw [if_neg h]
      exact Or.inl rfl

theorem convertState_ne_out_of_service (P : Platform) (state : GPS_DEVICE) :
    convertState P state ≠ OUT_OF_SERVICE := by
  unfold convertState AVAILABLE TEMPORARILY_UNAVAILABLE OUT_OF_SERVICE
  split_ifs <;> decide

theorem getState_success (P : Platform) (code e : DWORD) (state : GPS_DEVICE) (s : State)
    (h : code = P.ERROR_SUCCESS) :
    getState P (Outcome.returns (code, state) e) s =
      (convertState P state, SetLastError e s) := by
  have h2 : ¬ code ≠ P.ERROR_SUCCESS := not_not.2 h
  simp only [getState, tryCatch, Exec.bind_def, Exec.pure_def, bind_call_returns, ite_run,
    if_neg h2, pure_run]

theorem getState_failure (P : Platform) (code e : DWORD) (state : GPS_DEVICE) (s : State)
    (h : code ≠ P.ERROR_SUCCESS) :
    getState P (Outcome.returns (code, state) e) s =
      (OUT_OF_SERVICE,
        (throwLocationExceptionIfError P "Could not get device state" code
          (SetLastError e s)).2) := by
  simp only [getState, tryCatch, Exec.bind_def, Exec.pure_def, bind_call_returns, ite_run,
    if_pos h, bind_stmt, pure_run]

theorem getState_faults (P : Platform) (e : DWORD) (s : State) :
    getState P (Outcome.faults e) s =
      (OUT_OF_SERVICE, throwUnhandledException P
        "Unhandled exception getting the state of the GPS Intermediate Driver."
        (SetLastError e s)) := by
  simp only [getState, tryCatch, Exec.bind_def, Exec.pure_def, bind_call_faults]

theorem getLocation_ne_integer {D F : Type} [IntCast F] (P : Platform)
    (o : Outcome (DWORD × GPS_POSITION D F)) (s : State) (i : jint) :
    (getLocation P o s).1 ≠ jobject.integer i := by
  cases o with
  | faults e =>
    rw [getLocation_faults]
    exact fun h => jobject.noConfusion h
  | returns v e =>
    obtain ⟨code, position⟩ := v
    by_cases h : code = P.ERROR_SUCCESS
    · rw [getLocation_success _ _ _ _ _ h]
      simp only [convertLocation]
      split
      · exact fun h => jobject.noConfusion h
      · exact fun h => jobject.noConfusion h
    · rw [getLocation_failure _ _ _ _ _ h]
      exact fun h => jobject.noConfusion h

/-! ## Lemmas on the JNI methods -/

theorem startGPS_cases (P : Platform) (o : StartOutcomes) (s : State) :
    ((startGPS P o s).1 = false ∧ handles (startGPS P o s).2 = handles s) ∨
    (∃ h1 e1, o.CreateEvent_newLocationData = Outcome.returns h1 e1 ∧
      (startGPS P o s).1 = false ∧
      handles (startGPS P o s).2 = (s.hGPSDevice, h1, s.hDeviceStateChange)) ∨
    (∃ h1 e1 h2, o.CreateEvent_newLocationData = Outcome.returns h1 e1 ∧ h1 ≠ NULL ∧
      (startGPS P o s).1 = false ∧
      handles (startGPS P o s).2 = (s.hGPSDevice, h1, h2)) ∨
    (∃ h1 e1 h2, o.CreateEvent_newLocationData = Outcome.returns h1 e1 ∧ h1 ≠ NULL ∧
      h2 ≠ NULL ∧ (startGPS P o s).1 = false ∧
      handles (startGPS P o s).2 = (NULL, h1, h2)) ∨
    (∃ h1 e1 h2 h3, o.CreateEvent_newLocationData = Outcome.returns h1 e1 ∧ h1 ≠ NULL ∧
      h2 ≠ NULL ∧ h3 ≠ NULL ∧ (startGPS P o s).1 = true ∧
      handles (startGPS P o s).2 = (h3, h1, h2)) := by
  rcases o with ⟨reg, c1, c2, g⟩
  simp only [startGPS, tryCatch, Exec.bind_def, Exec.pure_def]
  obtain ⟨e, hb | hb | hb⟩ := hasGPS_bind P reg s
  · rw [hb]; exact Or.inl ⟨rfl, by simp⟩
  · rw [hb]; exact Or.inl ⟨rfl, rfl⟩
  · rw [hb]
    simp only [Bool.true_eq_false, if_false]
    cases c1 with
    | faults e1 => exact Or.inl ⟨rfl, by simp⟩
    | returns h1 e1 =>
      simp only [bind_call_returns, bind_stmt, ite_run]
      by_cases hh1 : h1 = NULL
      · rw [if_pos hh1]
        exact Or.inr (Or.inl ⟨h1, e1, rfl, rfl,
          (handles_throwLocationException P _ _).trans rfl⟩)
      · rw [if_neg hh1]
        cases c2 with
        | faults e2 => exact Or.inr (Or.inl ⟨h1, e1, rfl, rfl, by simp; rfl⟩)
        | returns h2 e2 =>
          simp only [bind_call_returns, bind_stmt, ite_run]
          by_cases hh2 : h2 = NULL
          · rw [if_pos hh2]
            exact Or.inr (Or.inr (Or.inl ⟨h1, e1, h2, rfl, hh1, rfl,
              (handles_throwLocationException P _ _).trans rfl⟩))
          · rw [if_neg hh2]
            cases g with
            | faults e3 =>
              exact Or.inr (Or.inr (Or.inl ⟨h1, e1, h2, rfl, hh1, rfl, by simp; rfl⟩))
            | returns h3 e3 =>
              simp only [bind_call_returns, bind_stmt, ite_run]
              by_cases hh3 : h3 = NULL
              · rw [if_pos hh3]
                refine Or.inr (Or.inr (Or.inr (Or.inl ⟨h1, e1, h2, rfl, hh1, hh2, rfl, ?_⟩)))
                rw [hh3]
                exact (handles_throwLocationException P _ _).trans rfl
              · rw [if_neg hh3]
                exact Or.inr (Or.inr (Or.inr (Or.inr
                  ⟨h1, e1, h2, h3, rfl, hh1, hh2, hh3, rfl, rfl⟩)))

theorem startGPS_no_receiver (P : Platform) (o : StartOutcomes) (s s1 : State)
    (h : hasGPS P o.registry s = (Completion.normal false, s1)) :
    startGPS P o s = (false, s1) := by
  simp only [startGPS, tryCatch, Exec.bind_def, Exec.pure_def]
  unfold Exec.bind
  rw [h]
  rfl

theorem stopGPS_no_fault (P : Platform) (s : State) (r1 e1 r2 e2 r3 e3 : DWORD) :
    handles (stopGPS P { CloseHandle_deviceStateChange := Outcome.returns r1 e1,
                         CloseHandle_gpsDevice := Outcome.returns r2 e2,
                         GPSCloseDevice := Outcome.returns r3 e3 } s).2 =
      if s.hGPSDevice ≠ NULL then (NULL, s.hNewLocationData, NULL) else handles s := by
  simp only [stopGPS, tryCatch, Exec.bind_def, Exec.pure_def, bind_readState, ite_run,
    bind_call_returns, bind_stmt, pure_run, stmt_run]
  by_cases h : s.hGPSDevice ≠ NULL
  · rw [if_pos h, if_pos h]
    by_cases hr : r3 ≠ P.ERROR_SUCCESS
    · rw [if_pos hr]
      simp only [handles_throwLocationExceptionIfError]
      rfl
    · rw [if_neg hr]
      rfl
  · rw [if_neg h, if_neg h]

theorem newLocationData_throwUnhandledException (P : Platform) (msg : String) (s : State) :
    (throwUnhandledException P msg s).hNewLocationData = s.hNewLocationData :=
  (handles_eq (handles_throwUnhandledException P msg s)).2.1

theorem newLocationData_throwLocationExceptionIfError (P : Platform) (msg : String)
    (code : DWORD) (s : State) :
    (throwLocationExceptionIfError P msg code s).2.hNewLocationData = s.hNewLocationData :=
  (handles_eq (handles_throwLocationExceptionIfError P msg code s)).2.1

theorem stopGPS_newLocationData (P : Platform) (o : StopOutcomes) (s : State) :
    (stopGPS P o s).2.hNewLocationData = s.hNewLocationData := by
  rcases o with ⟨a, b, c⟩
  simp only [stopGPS, tryCatch, Exec.bind_def, Exec.pure_def, bind_readState, ite_run]
  by_cases hd : s.hGPSDevice ≠ NULL
  · simp only [if_pos hd]
    cases a with
    | faults e1 =>
      simp only [bind_call_faults, newLocationData_throwUnhandledException, SetLastError]
    | returns r1 e1 =>
      cases b with
      | faults e2 =>
        simp only [bind_call_returns, bind_stmt, bind_call_faults,
          newLocationData_throwUnhandledException, SetLastError]
      | returns r2 e2 =>
        cases c with
        | faults e3 =>
          simp only [bind_call_returns, bind_stmt, bind_call_faults,
            newLocationData_throwUnhandledException, SetLastError]
        | returns r3 e3 =>
          simp only [bind_call_returns, bind_stmt, ite_run, pure_run, stmt_run]
          by_cases hr : r3 ≠ P.ERROR_SUCCESS
          · simp only [if_pos hr, newLocationData_throwLocationExceptionIfError, SetLastError]
          · simp only [if_neg hr, SetLastError]
  · simp only [if_neg hd, pure_run]

theorem getGPSEvent_faults {D F : Type} [IntCast F] (P : Platform) (o : EventOutcomes D F)
    (s : State) (e : DWORD) (ho : o.WaitForMultipleObjects = Outcome.faults e) :
    getGPSEvent P o s = (jobject.null, throwUnhandledException P
      "Unhandled exception waiting for GPS Intermediate Driver event." (SetLastError e s)) := by
  simp only [getGPSEvent, tryCatch, Exec.bind_def, Exec.pure_def, ho, bind_call_faults]

theorem getGPSEvent_newData {D F : Type} [IntCast F] (P : Platform) (o : EventOutcomes D F)
    (s : State) (e : DWORD)
    (ho : o.WaitForMultipleObjects = Outcome.returns P.WAIT_OBJECT_0 e) :
    getGPSEvent P o s = getLocation P o.GPSGetPosition (SetLastError e s) := by
  simp only [getGPSEvent, tryCatch, Exec.bind_def, Exec.pure_def, ho, bind_call_returns,
    ite_run, if_true, stmt_run]

theorem getGPSEvent_stateChange {D F : Type} [IntCast F] (P : Platform)
    (o : EventOutcomes D F) (s : State) (v e : DWORD)
    (ho : o.WaitForMultipleObjects = Outcome.returns v e)
    (h0 : v ≠ P.WAIT_OBJECT_0) (h1 : v = (P.WAIT_OBJECT_0 + 1) % 2 ^ 32) :
    getGPSEvent P o s =
      (jobject.integer (getState P o.GPSGetDeviceState (SetLastError e s)).1,
        (getState P o.GPSGetDeviceState (SetLastError e s)).2) := by
  simp only [getGPSEvent, tryCatch, Exec.bind_def, Exec.pure_def, ho, bind_call_returns,
    ite_run, if_neg h0, if_pos h1, bind_stmt, pure_run, convertInteger]

theorem getGPSEvent_waitFailed {D F : Type} [IntCast F] (P : Platform)
    (o : EventOutcomes D F) (s : State) (v e : DWORD)
    (ho : o.WaitForMultipleObjects = Outcome.returns v e)
    (h0 : v ≠ P.WAIT_OBJECT_0) (h1 : v ≠ (P.WAIT_OBJECT_0 + 1) % 2 ^ 32)
    (h2 : v = P.WAIT_FAILED) :
    getGPSEvent P o s =
      (jobject.null,
        (throwLocationExceptionIfError P "Error waiting for GPS events" e
          (SetLastError e s)).2) := by
  simp only [getGPSEvent, tryCatch, Exec.bind_def, Exec.pure_def, ho, bind_call_returns,
    ite_run, if_neg h0, if_neg h1, if_pos h2, bind_stmt, pure_run, GetLastError, SetLastError]

theorem getGPSEvent_other {D F : Type} [IntCast F] (P : Platform)
    (o : EventOutcomes D F) (s : State) (v e : DWORD)
    (ho : o.WaitForMultipleObjects = Outcome.returns v e)
    (h0 : v ≠ P.WAIT_OBJECT_0) (h1 : v ≠ (P.WAIT_OBJECT_0 + 1) % 2 ^ 32)
    (h2 : v ≠ P.WAIT_FAILED) :
    getGPSEvent P o s = (jobject.null, SetLastError e s) := by
  simp only [getGPSEvent, tryCatch, Exec.bind_def, Exec.pure_def, ho, bind_call_returns,
    ite_run, if_neg h0, if_neg h1, if_neg h2, pure_run]

theorem wait_object_1_ne (P : Platform) :
    (P.WAIT_OBJECT_0 + 1) % 2 ^ 32 ≠ P.WAIT_OBJECT_0 := by
  have h : ∀ n : Nat, (n + 1) % 2 ^ 32 ≠ n := by
    intro n
    omega
  exact h _

theorem getGPSEvent_integer {D F : Type} [IntCast F] (P : Platform)
    (o : EventOutcomes D F) (s : State) (i : jint)
    (h : (getGPSEvent P o s).1 = jobject.integer i) :
    ∃ e0, o.WaitForMultipleObjects = Outcome.returns ((P.WAIT_OBJECT_0 + 1) % 2 ^ 32) e0 := by
  cases ho : o.WaitForMultipleObjects with
  | faults e =>
    rw [getGPSEvent_faults P o s e ho] at h
    exact jobject.noConfusion h
  | returns v e =>
    by_cases h0 : v = P.WAIT_OBJECT_0
    · rw [getGPSEvent_newData P o s e (h0 ▸ ho)] at h
      exact absurd h (getLocation_ne_integer _ _ _ _)
    · by_cases h1 : v = (P.WAIT_OBJECT_0 + 1) % 2 ^ 32
      · exact ⟨e, by rw [h1]⟩
      · by_cases h2 : v = P.WAIT_FAILED
        · rw [getGPSEvent_waitFailed P o s v e ho h0 h1 h2] at h
          exact jobject.noConfusion h
        · rw [getGPSEvent_other P o s v e ho h0 h1 h2] at h
          exact jobject.noConfusion h

/-! ## Status translation -/

/-- C1: when the latitude bit and the longitude bit are both set, `convertLocation`
returns a location (not the invalid one) whose latitude and longitude are the raw
values, and each of altitude, horizontal accuracy, vertical accuracy, speed and
heading is the raw field when its bit is set and `-15000` when it is not. -/
theorem convertLocation_both_bits {D F : Type} [IntCast F] (P : Platform)
    (position : GPS_POSITION D F)
    (hboth : position.dwValidFields &&& P.GPS_VALID_LATITUDE ≠ 0 ∧
      position.dwValidFields &&& P.GPS_VALID_LONGITUDE ≠ 0) :
    ∃ (qc : QualifiedCoordinates D F) (speed heading : F),
      convertLocation P position = jobject.location qc speed heading ∧
      qc.latitude = position.dblLatitude ∧ qc.longitude = position.dblLongitude ∧
      (position.dwValidFields &&& P.GPS_VALID_ALTITUDE_WRT_ELLIPSOID ≠ 0 →
        qc.altitude = position.flAltitudeWRTEllipsoid) ∧
      (position.dwValidFields &&& P.GPS_VALID_ALTITUDE_WRT_ELLIPSOID = 0 →
        qc.altitude = ((-15000 : Int) : F)) ∧
      (position.dwValidFields &&& P.GPS_VALID_HORIZONTAL_DILUTION_OF_PRECISION ≠ 0 →
        qc.horizontalAccuracy = position.flHorizontalDilutionOfPrecision) ∧
      (position.dwValidFields &&& P.GPS_VALID_HORIZONTAL_DILUTION_OF_PRECISION = 0 →
        qc.horizontalAccuracy = ((-15000 : Int) : F)) ∧
      (position.dwValidFields &&& P.GPS_VALID_VERTICAL_DILUTION_OF_PRECISION ≠ 0 →
        qc.verticalAccuracy = position.flVerticalDilutionOfPrecision) ∧
      (position.dwValidFields &&& P.GPS_VALID_VERTICAL_DILUTION_OF_PRECISION = 0 →
        qc.verticalAccuracy = ((-15000 : Int) : F)) ∧
      (position.dwValidFields &&& P.GPS_VALID_SPEED ≠ 0 → speed = position.flSpeed) ∧
      (position.dwValidFields &&& P.GPS_VALID_SPEED = 0 → speed = ((-15000 : Int) : F)) ∧
      (position.dwValidFields &&& P.GPS_VALID_HEADING ≠ 0 → heading = position.flHeading) ∧
      (position.dwValidFields &&& P.GPS_VALID_HEADING = 0 →
        heading = ((-15000 : Int) : F)) := by
  have hne : ¬ position.dwValidFields &&& (P.GPS_VALID_LATITUDE ||| P.GPS_VALID_LONGITUDE) = 0 :=
    fun h => hboth.1 ((land_lor_eq_zero_iff _ _ _).1 h).1
  simp only [convertLocation, if_neg hne]
  refine ⟨_, _, _, rfl, rfl, rfl, ?_, ?_, ?_, ?_, ?_, ?_, ?_, ?_, ?_, ?_⟩ <;>
    intro h <;> simp [h]

/-- Witness of C1 on the Windows CE constants: latitude, longitude and speed valid. -/
theorem convertLocation_both_bits_witness :
    positionFull.dwValidFields &&& wince.GPS_VALID_LATITUDE ≠ 0 ∧
    positionFull.dwValidFields &&& wince.GPS_VALID_LONGITUDE ≠ 0 ∧
    convertLocation wince positionFull =
      (jobject.location
        { latitude := 47.6, longitude := -122.3, altitude := -15000,
          horizontalAccuracy := -15000, verticalAccuracy := -15000 } 3 (-15000) :
        jobject Rat Rat) := by
  have h1 : positionFull.dwValidFields &&& wince.GPS_VALID_LATITUDE ≠ 0 := by decide
  have h2 : positionFull.dwValidFields &&& wince.GPS_VALID_LONGITUDE ≠ 0 := by decide
  refine ⟨h1, h2, ?_⟩
  obtain ⟨qc, speed, heading, heq, hla, hlo, -, ha, -, hh, -, hv, hs, -, -, hd⟩ :=
    convertLocation_both_bits wince positionFull ⟨h1, h2⟩
  have e1 := ha (by decide)
  have e2 := hh (by decide)
  have e3 := hv (by decide)
  have e4 := hs (by decide)
  have e5 := hd (by decide)
  rw [heq]
  cases qc
  simp only at hla hlo e1 e2 e3
  subst hla hlo e1 e2 e3 e4 e5
  simp [positionFull]

/-- C2: when neither the latitude bit nor the longitude bit is set,
`convertLocation` returns the invalid (empty) location, whatever the other bits
and the raw field values are. -/
theorem convertLocation_no_bits {D F : Type} [IntCast F] (P : Platform)
    (position : GPS_POSITION D F)
    (hlat : position.dwValidFields &&& P.GPS_VALID_LATITUDE = 0)
    (hlon : position.dwValidFields &&& P.GPS_VALID_LONGITUDE = 0) :
    convertLocation P position = jobject.invalidLocation := by
  have h : position.dwValidFields &&& (P.GPS_VALID_LATITUDE ||| P.GPS_VALID_LONGITUDE) = 0 :=
    (land_lor_eq_zero_iff _ _ _).2 ⟨hlat, hlon⟩
  simp only [convertLocation, if_pos h]

/-- Witness of C2 on the Windows CE constants: only speed and heading valid. -/
theorem convertLocation_no_bits_witness :
    positionNoCoordinates.dwValidFields &&& wince.GPS_VALID_LATITUDE = 0 ∧
    positionNoCoordinates.dwValidFields &&& wince.GPS_VALID_LONGITUDE = 0 ∧
    convertLocation wince positionNoCoordinates = jobject.invalidLocation :=
  ⟨by decide, by decide,
    convertLocation_no_bits wince positionNoCoordinates (by decide) (by decide)⟩

/-- C3 (the code at the failing input): with the latitude bit set and the
longitude bit unset, `convertLocation` does not return the invalid location but a
location that carries the unset longitude field; and in general one of the two
bits is enough for `convertLocation` not to return the invalid location. -/
theorem convertLocation_latitude_only :
    (positionLatitudeOnly.dwValidFields &&& wince.GPS_VALID_LATITUDE ≠ 0 ∧
      positionLatitudeOnly.dwValidFields &&& wince.GPS_VALID_LONGITUDE = 0 ∧
      convertLocation wince positionLatitudeOnly ≠ jobject.invalidLocation ∧
      convertLocation wince positionLatitudeOnly =
        (jobject.location
          { latitude := 47.6, longitude := 0, altitude := -15000,
            horizontalAccuracy := -15000, verticalAccuracy := -15000 } (-15000) (-15000) :
          jobject Rat Rat)) ∧
    ∀ (P : Platform) (position : GPS_POSITION Rat Rat),
      (position.dwValidFields &&& P.GPS_VALID_LATITUDE ≠ 0 ∨
        position.dwValidFields &&& P.GPS_VALID_LONGITUDE ≠ 0) →
      convertLocation P position ≠ jobject.invalidLocation := by
  have h : convertLocation wince positionLatitudeOnly =
      (jobject.location
        { latitude := 47.6, longitude := 0, altitude := -15000,
          horizontalAccuracy := -15000, verticalAccuracy := -15000 } (-15000) (-15000) :
        jobject Rat Rat) := by
    simp only [convertLocation, positionLatitudeOnly, wince]
    rw [if_neg (by decide), if_neg (by decide), if_neg (by decide), if_neg (by decide),
      if_neg (by decide), if_neg (by decide)]
    simp
  refine ⟨⟨by decide, by decide, ?_, h⟩, ?_⟩
  · rw [h]
    exact fun hc => jobject.noConfusion hc
  · intro P position hbit
    have hne : ¬ position.dwValidFields &&&
        (P.GPS_VALID_LATITUDE ||| P.GPS_VALID_LONGITUDE) = 0 := by
      intro h0
      have h2 := (land_lor_eq_zero_iff _ _ _).1 h0
      rcases hbit with hb | hb
      · exact hb h2.1
      · exact hb h2.2
    simp only [convertLocation, if_neg hne]
    exact fun hc => jobject.noConfusion hc

/-- C4: `convertState` returns `AVAILABLE` exactly for `SERVICE_STATE_ON`,
`TEMPORARILY_UNAVAILABLE` for every other value, and never `OUT_OF_SERVICE`. -/
theorem convertState_spec (P : Platform) (state : GPS_DEVICE) :
    (convertState P state = AVAILABLE ↔ state.dwServiceState = P.SERVICE_STATE_ON) ∧
    convertState P state =
      (if state.dwServiceState = P.SERVICE_STATE_ON then AVAILABLE
       else TEMPORARILY_UNAVAILABLE) ∧
    convertState P state ≠ OUT_OF_SERVICE := by
  unfold convertState AVAILABLE TEMPORARILY_UNAVAILABLE OUT_OF_SERVICE
  by_cases h : state.dwServiceState = P.SERVICE_STATE_ON
  · simp [h]
  · simp only [if_neg h, ite_self]
    simp [h]

/-! ## Error signalling -/

/-- C7 (counterexample): from the Closed state, a start whose second event
creation fails leaves the new-data event set and the two other handles null: the
session is neither Closed nor Open. -/
theorem session_invariant_fails :
    Closed initialState ∧
    ¬ (Closed (runCalls wince [SessionCall.start startSecondEventFails] initialState) ∨
       Open (runCalls wince [SessionCall.start startSecondEventFails] initialState)) := by
  decide

/-- C7 (amended): in every state reached from the Closed state by any sequence of
`startGPS` and `stopGPS` calls, with any outcomes of the platform calls: a start
that returns true leaves all three handles non-null; a start on a Closed session
whose first event creation fails leaves it Closed; a start on a Closed session
leaves it Closed, or Open, or returns false with the driver handle null and the
new-data event handle non-null; and a stop none of whose platform calls faults
leaves the driver handle null. -/
theorem session_after_calls (P : Platform) (cs : List SessionCall) :
    (∀ o : StartOutcomes, (startGPS P o (runCalls P cs initialState)).1 = true →
      Open (startGPS P o (runCalls P cs initialState)).2) ∧
    (∀ (o : StartOutcomes) (e : DWORD), Closed (runCalls P cs initialState) →
      o.CreateEvent_newLocationData = Outcome.returns NULL e →
      Closed (startGPS P o (runCalls P cs initialState)).2) ∧
    (∀ o : StartOutcomes, Closed (runCalls P cs initialState) →
      Closed (startGPS P o (runCalls P cs initialState)).2 ∨
      Open (startGPS P o (runCalls P cs initialState)).2 ∨
      ((startGPS P o (runCalls P cs initialState)).1 = false ∧
        (startGPS P o (runCalls P cs initialState)).2.hGPSDevice = NULL ∧
        (startGPS P o (runCalls P cs initialState)).2.hNewLocationData ≠ NULL)) ∧
    (∀ r1 e1 r2 e2 r3 e3 : DWORD,
      (stopGPS P { CloseHandle_deviceStateChange := Outcome.returns r1 e1,
                   CloseHandle_gpsDevice := Outcome.returns r2 e2,
                   GPSCloseDevice := Outcome.returns r3 e3 }
        (runCalls P cs initialState)).2.hGPSDevice = NULL) := by
  generalize runCalls P cs initialState = s
  refine ⟨?_, ?_, ?_, ?_⟩
  · intro o ht
    rcases startGPS_cases P o s with h | ⟨_, _, _, h, _⟩ | ⟨_, _, _, _, _, h, _⟩ |
      ⟨_, _, _, _, _, _, h, _⟩ | ⟨h1, e1, h2, h3, _, n1, n2, n3, _, hh⟩
    · rw [h.1] at ht; cases ht
    · rw [h] at ht; cases ht
    · rw [h] at ht; cases ht
    · rw [h] at ht; cases ht
    · obtain ⟨a, b, c⟩ := handles_eq hh
      exact ⟨a ▸ n3, b ▸ n1, c ▸ n2⟩
  · intro o e hs ho
    obtain ⟨s1, s2, s3⟩ := hs
    rcases startGPS_cases P o s with h | ⟨h1, e1, hc, _, hh⟩ | ⟨h1, e1, _, hc, n1, _⟩ |
      ⟨h1, e1, _, hc, n1, _⟩ | ⟨h1, e1, _, _, hc, n1, _⟩
    · obtain ⟨a, b, c⟩ := handles_eq h.2
      exact ⟨a.trans s1, b.trans s2, c.trans s3⟩
    · rw [ho] at hc
      obtain ⟨a, b, c⟩ := handles_eq hh
      cases hc
      exact ⟨a.trans s1, b, c.trans s3⟩
    · rw [ho] at hc; cases hc; exact absurd rfl n1
    · rw [ho] at hc; cases hc; exact absurd rfl n1
    · rw [ho] at hc; cases hc; exact absurd rfl n1
  · intro o hs
    obtain ⟨s1, s2, s3⟩ := hs
    rcases startGPS_cases P o s with h | ⟨h1, e1, _, hf, hh⟩ | ⟨h1, e1, h2, _, n1, hf, hh⟩ |
      ⟨h1, e1, h2, _, n1, n2, hf, hh⟩ | ⟨h1, e1, h2, h3, _, n1, n2, n3, _, hh⟩
    · obtain ⟨a, b, c⟩ := handles_eq h.2
      exact Or.inl ⟨a.trans s1, b.trans s2, c.trans s3⟩
    · obtain ⟨a, b, c⟩ := handles_eq hh
      by_cases hn : h1 = NULL
      · exact Or.inl ⟨a.trans s1, b.trans hn, c.trans s3⟩
      · exact Or.inr (Or.inr ⟨hf, a.trans s1, b ▸ hn⟩)
    · obtain ⟨a, b, c⟩ := handles_eq hh
      exact Or.inr (Or.inr ⟨hf, a.trans s1, b ▸ n1⟩)
    · obtain ⟨a, b, c⟩ := handles_eq hh
      exact Or.inr (Or.inr ⟨hf, a, b ▸ n1⟩)
    · obtain ⟨a, b, c⟩ := handles_eq hh
      exact Or.inr (Or.inl ⟨a ▸ n3, b ▸ n1, c ▸ n2⟩)
  · intro r1 e1 r2 e2 r3 e3
    have h := stopGPS_no_fault P s r1 e1 r2 e2 r3 e3
    by_cases hd : s.hGPSDevice ≠ NULL
    · rw [if_pos hd] at h
      exact (handles_eq h).1
    · rw [if_neg hd] at h
      exact ((handles_eq h).1).trans (not_not.1 hd)

/-- C8: for every outcome of the wait (the event that fired, `WAIT_FAILED` with the
code of the failure, or a fault) and every outcome of the driver query that
follows, `getGPSEvent` returns a non-null value or signals one error, a
`LocationException` or a `RuntimeException`: it never returns null with nothing
signalled.  When the wait fails it returns null and signals a `LocationException`
for the code of the failure. -/
theorem getGPSEvent_value_or_error {D F : Type} [IntCast F] (P : Platform)
    (o : EventOutcomes D F) (s : State)
    (hwait : WaitOutcome P o.WaitForMultipleObjects) :
    ((getGPSEvent P o s).1 ≠ jobject.null ∨
      ∃ name text,
        (getGPSEvent P o s).2.thrown = s.thrown ++ [{ name := name, msg := text }] ∧
        (name = "javax/microedition/location/LocationException" ∨
          name = "java/lang/RuntimeException")) ∧
    ¬ ((getGPSEvent P o s).1 = jobject.null ∧ (getGPSEvent P o s).2.thrown = s.thrown) ∧
    (∀ e, o.WaitForMultipleObjects = Outcome.returns P.WAIT_FAILED e →
      P.WAIT_FAILED ≠ P.WAIT_OBJECT_0 → P.WAIT_FAILED ≠ (P.WAIT_OBJECT_0 + 1) % 2 ^ 32 →
      (getGPSEvent P o s).1 = jobject.null ∧
      (getGPSEvent P o s).2.thrown = s.thrown ++
        [{ name := "javax/microedition/location/LocationException",
           msg := "Error waiting for GPS events" ++ "; [" ++ toString (e % 2 ^ 32) ++ "] "
             ++ getWinErrorMessage P e }]) := by
  have hfailed : ∀ v e, o.WaitForMultipleObjects = Outcome.returns v e →
      v ≠ P.WAIT_OBJECT_0 → v ≠ (P.WAIT_OBJECT_0 + 1) % 2 ^ 32 → v = P.WAIT_FAILED →
      e ≠ P.ERROR_SUCCESS →
      (getGPSEvent P o s).1 = jobject.null ∧
      (getGPSEvent P o s).2.thrown = s.thrown ++
        [{ name := "javax/microedition/location/LocationException",
           msg := "Error waiting for GPS events" ++ "; [" ++ toString (e % 2 ^ 32) ++ "] "
             ++ getWinErrorMessage P e }] := by
    intro v e ho h0 h1 h2 he
    rw [getGPSEvent_waitFailed P o s v e ho h0 h1 h2,
      throwLocationExceptionIfError_failure P "Error waiting for GPS events" e _ he
        (by decide)]
    exact ⟨rfl, rfl⟩
  have hmain : (getGPSEvent P o s).1 ≠ jobject.null ∨
      ∃ name text,
        (getGPSEvent P o s).2.thrown = s.thrown ++ [{ name := name, msg := text }] ∧
        (name = "javax/microedition/location/LocationException" ∨
          name = "java/lang/RuntimeException") := by
    cases ho : o.WaitForMultipleObjects with
    | faults e =>
      rw [getGPSEvent_faults P o s e ho]
      obtain ⟨text, ht⟩ := throwUnhandledException_thrown P
        "Unhandled exception waiting for GPS Intermediate Driver event."
        (SetLastError e s) (by decide)
      exact Or.inr ⟨_, text, ht, Or.inr rfl⟩
    | returns v e =>
      rw [ho] at hwait
      by_cases h0 : v = P.WAIT_OBJECT_0
      · rw [getGPSEvent_newData P o s e (h0 ▸ ho)]
        rcases getLocation_cases P o.GPSGetPosition (SetLastError e s) with
          ⟨h1, -⟩ | ⟨-, name, text, h2, hk⟩
        · exact Or.inl h1
        · exact Or.inr ⟨name, text, h2, hk⟩
      · by_cases h1 : v = (P.WAIT_OBJECT_0 + 1) % 2 ^ 32
        · rw [getGPSEvent_stateChange P o s v e ho h0 h1]
          exact Or.inl (fun hc => jobject.noConfusion hc)
        · rcases hwait with hw | hw | ⟨h2, he⟩
          · exact absurd hw h0
          · exact absurd hw h1
          · obtain ⟨-, ht⟩ := hfailed v e ho h0 h1 h2 he
            exact Or.inr ⟨_, _, ht, Or.inl rfl⟩
  refine ⟨hmain, ?_, ?_⟩
  · rintro ⟨hnull, hthrown⟩
    rcases hmain with h | ⟨name, text, ht, -⟩
    · exact h hnull
    · rw [ht] at hthrown
      exact append_singleton_ne _ _ hthrown
  · intro e ho h0 h1
    rw [ho] at hwait
    rcases hwait with hw | hw | ⟨-, he⟩
    · exact absurd hw h0
    · exact absurd hw h1
    · exact hfailed _ e ho h0 h1 rfl he

/-- Witness of C8 on the Windows CE constants: the wait fails on an invalid handle
(last error 6). -/
theorem getGPSEvent_value_or_error_witness :
    WaitOutcome wince eventWaitFails.WaitForMultipleObjects ∧
    (getGPSEvent wince eventWaitFails initialState).1 = jobject.null ∧
    (getGPSEvent wince eventWaitFails initialState).2.thrown =
      [{ name := "javax/microedition/location/LocationException",
         msg := "Error waiting for GPS events; [6] The handle is invalid." }] := by
  have hw : WaitOutcome wince eventWaitFails.WaitForMultipleObjects :=
    Or.inr (Or.inr ⟨rfl, by decide⟩)
  have h := (getGPSEvent_value_or_error wince eventWaitFails initialState hw).2.2 6 rfl
    (by decide) (by decide)
  refine ⟨hw, h.1, ?_⟩
  rw [h.2]
  decide

/-- C9: when the new-data event fires and the position query returns a non-Success
code, `getGPSEvent` returns null, whatever the position buffer holds, and signals
one `LocationException` whose text is `"Could not get position"` followed by the
code and its description. -/
theorem getGPSEvent_position_failure {D F : Type} [IntCast F] (P : Platform)
    (o : EventOutcomes D F) (s : State) (e0 code e1 : DWORD) (position : GPS_POSITION D F)
    (hwait : o.WaitForMultipleObjects = Outcome.returns P.WAIT_OBJECT_0 e0)
    (hquery : o.GPSGetPosition = Outcome.returns (code, position) e1)
    (hcode : code ≠ P.ERROR_SUCCESS) :
    (getGPSEvent P o s).1 = jobject.null ∧
    (getGPSEvent P o s).2.thrown = s.thrown ++
      [{ name := "javax/microedition/location/LocationException",
         msg := "Could not get position" ++
           ("; [" ++ toString (code % 2 ^ 32) ++ "] " ++ getWinErrorMessage P code) }] := by
  rw [getGPSEvent_newData P o s e0 hwait, hquery, getLocation_failure _ _ _ _ _ hcode,
    throwLocationExceptionIfError_failure P "Could not get position" code _ hcode
      (by decide)]
  refine ⟨rfl, ?_⟩
  simp only [SetLastError, formatLastError, String.append_assoc]

/-- Witness of C9: the position query fails with code 87 on the Windows CE
constants. -/
theorem getGPSEvent_position_failure_witness :
    eventPositionFails.WaitForMultipleObjects = Outcome.returns wince.WAIT_OBJECT_0 0 ∧
    eventPositionFails.GPSGetPosition = Outcome.returns (87, positionFull) 0 ∧
    87 ≠ wince.ERROR_SUCCESS ∧
    (getGPSEvent wince eventPositionFails initialState).1 = jobject.null ∧
    (getGPSEvent wince eventPositionFails initialState).2.thrown =
      [{ name := "javax/microedition/location/LocationException",
         msg := "Could not get position; [87] No error message for code 87" }] := by
  have h := getGPSEvent_position_failure wince eventPositionFails initialState 0 87 0
    positionFull rfl rfl (by decide)
  refine ⟨rfl, rfl, by decide, h.1, ?_⟩
  rw [h.2]
  decide

/-- C10 (the code at the failing input): on an open session, with a driver-close
call that reports a failure, `stopGPS` leaves the new-data event handle as it was
(non-null) and signals nothing; and whatever the session and the outcomes of the
platform calls are, `stopGPS` leaves the new-data event handle as it was. -/
theorem stopGPS_keeps_newLocationData :
    (Open openState ∧
      (stopGPS wince stopCloseFails openState).2.hNewLocationData = 0x1001 ∧
      (stopGPS wince stopCloseFails openState).2.hNewLocationData ≠ NULL ∧
      (stopGPS wince stopCloseFails openState).2.thrown = []) ∧
    ∀ (P : Platform) (o : StopOutcomes) (s : State),
      (stopGPS P o s).2.hNewLocationData = s.hNewLocationData :=
  ⟨by decide, stopGPS_newLocationData⟩

/-- C11: when `hasGPS` reports no receiver, `startGPS` returns false, signals
nothing and leaves the three handles as they were (a Closed session stays
Closed); the state it leaves is the one the registry query left, and the result
is the same whatever the outcomes of the event creations and of the driver open
would be, so none of them is called. -/
theorem startGPS_device_absent (P : Platform) (o : StartOutcomes) (s : State)
    (habsent : (hasGPS P o.registry s).1 = Completion.normal false) :
    (startGPS P o s).1 = false ∧
    (startGPS P o s).2.thrown = s.thrown ∧
    (startGPS P o s).2.hGPSDevice = s.hGPSDevice ∧
    (startGPS P o s).2.hNewLocationData = s.hNewLocationData ∧
    (startGPS P o s).2.hDeviceStateChange = s.hDeviceStateChange ∧
    (Closed s → Closed (startGPS P o s).2) ∧
    (startGPS P o s).2 = (hasGPS P o.registry s).2 ∧
    ∀ c1 c2 g : Outcome HANDLE,
      startGPS P { registry := o.registry, CreateEvent_newLocationData := c1,
                   CreateEvent_deviceStateChange := c2, GPSOpenDevice := g } s =
        startGPS P o s := by
  obtain ⟨c, e, hc⟩ := hasGPS_frame P o.registry s
  rw [hc] at habsent
  simp only at habsent
  subst habsent
  have h1 := startGPS_no_receiver P o s _ hc
  refine ⟨by rw [h1], by rw [h1]; rfl, by rw [h1]; rfl, by rw [h1]; rfl, by rw [h1]; rfl,
    ?_, by rw [h1, hc], ?_⟩
  · rw [h1]
    exact fun hs => hs
  · intro c1 c2 g
    rw [h1]
    exact startGPS_no_receiver P _ s _ hc

/-- Witness of C11: the `CurrentDriver` value is missing from the registry. -/
theorem startGPS_device_absent_witness :
    (hasGPS wince startNoReceiver.registry initialState).1 = Completion.normal false ∧
    (startGPS wince startNoReceiver initialState).1 = false ∧
    (startGPS wince startNoReceiver initialState).2.thrown = [] ∧
    Closed (startGPS wince startNoReceiver initialState).2 := by
  have h := startGPS_device_absent wince startNoReceiver initialState (by decide)
  exact ⟨by decide, h.1, h.2.1, h.2.2.2.2.2.1 (by decide)⟩

/-- C12: when the state-change event fires and the device-state query succeeds
with a service state, `getGPSEvent` returns the boxed value of `convertState` for
that state and signals nothing.  When the query fails, or faults, it returns
`OUT_OF_SERVICE` and signals one error.  `OUT_OF_SERVICE` is returned only when
the state-change event fired and the query failed or faulted, and then an error was
signalled. -/
theorem getGPSEvent_state_change {D F : Type} [IntCast F] (P : Platform)
    (o : EventOutcomes D F) (s : State) :
    (∀ e0 state e1,
      o.WaitForMultipleObjects = Outcome.returns ((P.WAIT_OBJECT_0 + 1) % 2 ^ 32) e0 →
      o.GPSGetDeviceState = Outcome.returns (P.ERROR_SUCCESS, state) e1 →
      (getGPSEvent P o s).1 = jobject.integer (convertState P state) ∧
      (getGPSEvent P o s).2.thrown = s.thrown) ∧
    (∀ e0 code state e1,
      o.WaitForMultipleObjects = Outcome.returns ((P.WAIT_OBJECT_0 + 1) % 2 ^ 32) e0 →
      o.GPSGetDeviceState = Outcome.returns (code, state) e1 → code ≠ P.ERROR_SUCCESS →
      (getGPSEvent P o s).1 = jobject.integer OUT_OF_SERVICE ∧
      (getGPSEvent P o s).2.thrown = s.thrown ++
        [{ name := "javax/microedition/location/LocationException",
           msg := "Could not get device state" ++ "; [" ++ toString (code % 2 ^ 32) ++ "] "
             ++ getWinErrorMessage P code }]) ∧
    (∀ e0 e1,
      o.WaitForMultipleObjects = Outcome.returns ((P.WAIT_OBJECT_0 + 1) % 2 ^ 32) e0 →
      o.GPSGetDeviceState = Outcome.faults e1 →
      (getGPSEvent P o s).1 = jobject.integer OUT_OF_SERVICE ∧
      ∃ text, (getGPSEvent P o s).2.thrown = s.thrown ++
        [{ name := "java/lang/RuntimeException", msg := text }]) ∧
    ((getGPSEvent P o s).1 = jobject.integer OUT_OF_SERVICE →
      (∃ e0, o.WaitForMultipleObjects =
        Outcome.returns ((P.WAIT_OBJECT_0 + 1) % 2 ^ 32) e0) ∧
      ((∃ code state e1, o.GPSGetDeviceState = Outcome.returns (code, state) e1 ∧
          code ≠ P.ERROR_SUCCESS) ∨
        ∃ e1, o.GPSGetDeviceState = Outcome.faults e1) ∧
      ∃ name text,
        (getGPSEvent P o s).2.thrown = s.thrown ++ [{ name := name, msg := text }] ∧
        (name = "javax/microedition/location/LocationException" ∨
          name = "java/lang/RuntimeException")) := by
  have hfail : ∀ e0 code state e1,
      o.WaitForMultipleObjects = Outcome.returns ((P.WAIT_OBJECT_0 + 1) % 2 ^ 32) e0 →
      o.GPSGetDeviceState = Outcome.returns (code, state) e1 → code ≠ P.ERROR_SUCCESS →
      (getGPSEvent P o s).1 = jobject.integer OUT_OF_SERVICE ∧
      (getGPSEvent P o s).2.thrown = s.thrown ++
        [{ name := "javax/microedition/location/LocationException",
           msg := "Could not get device state" ++ "; [" ++ toString (code % 2 ^ 32) ++ "] "
             ++ getWinErrorMessage P code }] := by
    intro e0 code state e1 hwait hquery hcode
    rw [getGPSEvent_stateChange P o s _ e0 hwait (wait_object_1_ne P) rfl, hquery,
      getState_failure _ _ _ _ _ hcode,
      throwLocationExceptionIfError_failure P "Could not get device state" code _ hcode
        (by decide)]
    exact ⟨rfl, rfl⟩
  have hfault : ∀ e0 e1,
      o.WaitForMultipleObjects = Outcome.returns ((P.WAIT_OBJECT_0 + 1) % 2 ^ 32) e0 →
      o.GPSGetDeviceState = Outcome.faults e1 →
      (getGPSEvent P o s).1 = jobject.integer OUT_OF_SERVICE ∧
      ∃ text, (getGPSEvent P o s).2.thrown = s.thrown ++
        [{ name := "java/lang/RuntimeException", msg := text }] := by
    intro e0 e1 hwait hquery
    rw [getGPSEvent_stateChange P o s _ e0 hwait (wait_object_1_ne P) rfl, hquery,
      getState_faults]
    obtain ⟨text, ht⟩ := throwUnhandledException_thrown P
      "Unhandled exception getting the state of the GPS Intermediate Driver."
      (SetLastError e1 (SetLastError e0 s)) (by decide)
    exact ⟨rfl, text, ht⟩
  refine ⟨?_, hfail, hfault, ?_⟩
  · intro e0 state e1 hwait hquery
    rw [getGPSEvent_stateChange P o s _ e0 hwait (wait_object_1_ne P) rfl, hquery,
      getState_success _ _ _ _ _ rfl]
    exact ⟨rfl, rfl⟩
  · intro hout
    obtain ⟨e0, hwait⟩ := getGPSEvent_integer P o s _ hout
    refine ⟨⟨e0, hwait⟩, ?_⟩
    cases hq : o.GPSGetDeviceState with
    | faults e1 =>
      obtain ⟨-, text, ht⟩ := hfault e0 e1 hwait hq
      exact ⟨Or.inr ⟨e1, rfl⟩, _, text, ht, Or.inr rfl⟩
    | returns v e1 =>
      obtain ⟨code, state⟩ := v
      by_cases hcode : code = P.ERROR_SUCCESS
      · exfalso
        rw [getGPSEvent_stateChange P o s _ e0 hwait (wait_object_1_ne P) rfl, hq,
          getState_success _ _ _ _ _ hcode] at hout
        exact convertState_ne_out_of_service P state (jobject.integer.inj hout)
      · obtain ⟨-, ht⟩ := hfail e0 code state e1 hwait hq hcode
        exact ⟨Or.inl ⟨code, state, e1, rfl, hcode⟩, _, _, ht, Or.inl rfl⟩

/-- Witness of C12 on the Windows CE constants: the service is on, and the query
fails with code 87. -/
theorem getGPSEvent_state_change_witness :
    ((getGPSEvent wince eventStateOn initialState).1 = jobject.integer AVAILABLE ∧
      (getGPSEvent wince eventStateOn initialState).2.thrown = []) ∧
    ((getGPSEvent wince eventStateQueryFails initialState).1 =
        jobject.integer OUT_OF_SERVICE ∧
      (getGPSEvent wince eventStateQueryFails initialState).2.thrown =
        [{ name := "javax/microedition/location/LocationException",
           msg := "Could not get device state; [87] No error message for code 87" }]) := by
  have h1 := (getGPSEvent_state_change wince eventStateOn initialState).1 0
    { dwServiceState := 1 } 0 rfl rfl
  have h2 := (getGPSEvent_state_change wince eventStateQueryFails initialState).2.1 0 87
    { dwServiceState := 0 } 0 rfl rfl (by decide)
  refine ⟨⟨?_, h1.2⟩, ⟨h2.1, ?_⟩⟩
  · rw [h1.1]
    decide
  · rw [h2.2]
    decide

end LocationSource
